import Mathlib

/-!
Verification of the BayerProcessAgent calculation core.

The repository contains two variants of the flocculant-preparation tool:
a first pass (`app.py`) and a mode-aware rewrite (`mode_flocculant_agent.py`).
The numeric core is embedded here over `ℚ` (the Python code computes with
floats, but every operation involved — one division, one multiplication,
one subtraction — is exact linear ratio arithmetic, and every claim is an
algebraic identity or comparison; `ℚ` is the exact model of that arithmetic).
Presentation-only data (unit label strings, log lines, UI error display) is
elided; everything that feeds a computation or a branch is kept.
-/

namespace BayerProcess

namespace App

/-- Embedding of `app.py::calculate_solution` (lines 7-11): unguarded linear
split of `target_amount` into emulsion and water per `concentration` percent. -/
def calculate_solution (target_amount concentration : ℚ) : ℚ × ℚ :=
  let frac := concentration / 100
  let emulsion := target_amount * frac
  let water := target_amount - emulsion
  (emulsion, water)

end App

namespace Agent

/-- Embedding of `mode_flocculant_agent.py::calculate_solution` (lines 34-59):
the guard `amount <= 0 or concentration <= 0` raises, the handler catches and
returns the zeroed pair `(0.0, 0.0)`; otherwise the same linear split. -/
def calculate_solution (amount concentration : ℚ) : ℚ × ℚ :=
  if amount ≤ 0 ∨ concentration ≤ 0 then (0, 0)
  else
    let fraction := concentration / 100
    let solute_amount := amount * fraction
    let solvent_amount := amount - solute_amount
    (solute_amount, solvent_amount)

/-- The cross-step block of `validate_inputs` (lines 84-86): fires only when a
prior stock concentration is known (`Option` models key presence in the
session) and the requested concentration is not below it. -/
def cross_check (concentration : ℚ) (session_stock_conc : Option ℚ) : List String :=
  match session_stock_conc with
  | some sc =>
      if sc ≤ concentration then
        ["Final concentration should be lower than stock concentration"]
      else []
  | none => []

/-- Embedding of `mode_flocculant_agent.py::validate_inputs` (lines 61-92):
five rules appended in order, never short-circuited. -/
def validate_inputs (amount concentration : ℚ) (step_name : String)
    (session_stock_conc : Option ℚ) : List String :=
  (if amount ≤ 0 then [step_name ++ ": Amount must be greater than 0"] else []) ++
  (if concentration ≤ 0 then [step_name ++ ": Concentration must be greater than 0"] else []) ++
  (if 100 ≤ concentration then [step_name ++ ": Concentration must be less than 100%"] else []) ++
  (if step_name = "Final Dilution" then cross_check concentration session_stock_conc else []) ++
  (if 10000 < amount then [step_name ++ ": Amount seems unreasonably large (>10000)"] else [])

/-- Result of the step-2 dilution computation (lines 543-549): the C1V1 = C2V2
split plus the sufficiency comparison. -/
structure DilutionResult where
  stock_needed : ℚ
  water_needed : ℚ
  sufficient : Bool
deriving DecidableEq

/-- Embedding of the step-2 dilution computation in `main`
(`mode_flocculant_agent.py` lines 543-549):
`stock_needed = (final_conc * final_amount) / stock_conc`,
`water_needed = final_amount - stock_needed`, and `sufficient` is the negation
of the code's `stock_needed > available_stock` insufficiency branch. -/
def computeDilution (stock_conc final_amount final_conc available_stock : ℚ) :
    DilutionResult :=
  let stock_needed := (final_conc * final_amount) / stock_conc
  let water_needed := final_amount - stock_needed
  { stock_needed := stock_needed
    water_needed := water_needed
    sufficient := decide (¬ available_stock < stock_needed) }

/-- The `stock_calculations` record written by the step-1 handler
(lines 451-458); unit label strings elided. -/
structure StockCalc where
  emulsion_needed : ℚ
  water_needed : ℚ
  stock_amount : ℚ
  stock_conc : ℚ
deriving DecidableEq

/-- The `dilution_calculations` record written by the step-2 handler
(lines 553-560); unit label strings elided. -/
structure DilutionCalc where
  stock_needed : ℚ
  water_needed : ℚ
  final_amount : ℚ
  final_conc : ℚ
deriving DecidableEq

/-- The slice of `st.session_state` the step-2 handler reads and writes:
the current input fields, the accepted step-1 record, the step-2 record
(`none` models the empty dict), and the completion flag. -/
structure Session where
  stock_conc : ℚ
  final_amount : ℚ
  final_conc : ℚ
  stock_calculations : StockCalc
  dilution_calculations : Option DilutionCalc
  step2_completed : Bool
deriving DecidableEq

/-- Embedding of the step-2 button handler (`mode_flocculant_agent.py`
lines 530-561): validate; on violations clear the flag; otherwise compute the
C1V1 = C2V2 split from the accepted stock concentration; on insufficiency
clear the flag; otherwise store the record and set the flag. The validator
reads the top-level `stock_conc` session key, the computation reads
`stock_calculations['stock_conc']`, exactly as in the source. -/
def step2_handler (st : Session) : Session :=
  let errors := validate_inputs st.final_amount st.final_conc "Final Dilution"
    (some st.stock_conc)
  if errors = [] then
    let stock_conc := st.stock_calculations.stock_conc
    let final_conc := st.final_conc
    let final_amount := st.final_amount
    let stock_needed := (final_conc * final_amount) / stock_conc
    let water_needed := final_amount - stock_needed
    let available_stock := st.stock_calculations.stock_amount
    if available_stock < stock_needed then
      { st with step2_completed := false }
    else
      { st with
        dilution_calculations := some
          { stock_needed := stock_needed
            water_needed := water_needed
            final_amount := final_amount
            final_conc := final_conc }
        step2_completed := true }
  else
    { st with step2_completed := false }

/-- A concrete reachable step-2 state with the spec's Scenario 3 request:
stock at 0.3 percent, final dilution requested at 0.5 percent. The accepted
stock record matches the current `stock_conc` input, as the source maintains
(any change to the stock inputs runs `reset_calculations`, clearing
`step1_completed` and thereby disabling the step-2 handler). -/
def invalidDilutionSession : Session :=
  { stock_conc := 0.3
    final_amount := 200
    final_conc := 0.5
    stock_calculations :=
      { emulsion_needed := 0.6
        water_needed := 199.4
        stock_amount := 200
        stock_conc := 0.3 }
    dilution_calculations := none
    step2_completed := false }

/-- A concrete reachable step-2 state realizing the spec's Scenario 5:
20 units of 1-percent stock accepted, 250 units of 0.1-percent working
solution requested, so 25 units of stock are needed but only 20 exist. -/
def insufficientStockSession : Session :=
  { stock_conc := 1
    final_amount := 250
    final_conc := 0.1
    stock_calculations :=
      { emulsion_needed := 0.2
        water_needed := 19.8
        stock_amount := 20
        stock_conc := 1 }
    dilution_calculations := none
    step2_completed := false }

end Agent

open Agent

/-- Characterization of when `validate_inputs` returns no violations: exactly
when every one of its five rules passes. -/
theorem validate_inputs_eq_nil_iff (a c : ℚ) (s : String) (ctx : Option ℚ) :
    validate_inputs a c s ctx = [] ↔
      (0 < a ∧ 0 < c ∧ c < 100 ∧
        (s = "Final Dilution" → ∀ x, ctx = some x → c < x) ∧ a ≤ 10000) := by
  rcases ctx with _ | sc <;>
    simp [validate_inputs, cross_check, List.append_eq_nil, ite_eq_right_iff,
      not_le, not_lt]

/-- C1: for every positive stock concentration, final amount and final
concentration, and nonnegative available stock, the step-2 dilution
computation returns `stock_needed = final_conc * final_amount / stock_conc`
and `water_needed = final_amount - stock_needed`; at the spec's Scenario 2
inputs (stock 1 percent, 200 units at 0.1 percent, 200 available) it yields
stock 20, water 180, sufficient. -/
theorem C1_dilution_formula (s f c a : ℚ) (hs : 0 < s) (hf : 0 < f)
    (hc : 0 < c) (ha : 0 ≤ a) :
    (computeDilution s f c a).stock_needed = c * f / s ∧
    (computeDilution s f c a).water_needed = f - c * f / s ∧
    computeDilution 1 200 (0.1) 200 = ⟨20, 180, true⟩ := by
  refine ⟨rfl, rfl, ?_⟩
  norm_num [computeDilution]

/-- Witness for C1 at the Scenario 2 inputs. -/
theorem C1_witness :
    (computeDilution 1 200 (0.1) 200).stock_needed = 0.1 * 200 / 1 ∧
    (computeDilution 1 200 (0.1) 200).water_needed = 200 - 0.1 * 200 / 1 ∧
    computeDilution 1 200 (0.1) 200 = ⟨20, 180, true⟩ :=
  C1_dilution_formula 1 200 (0.1) 200 (by norm_num) (by norm_num) (by norm_num)
    (by norm_num)

/-- C2: for every positive target amount and concentration in (0,100), both
variants of `calculate_solution` return the solute amount
`target * conc / 100` and the solvent amount `target - solute`, and solute
plus solvent equals the target exactly (over `ℚ` the identity is exact, hence
within any tolerance). -/
theorem C2_solution_split (t c : ℚ) (ht : 0 < t) (hc0 : 0 < c)
    (hc100 : c < 100) :
    Agent.calculate_solution t c = (t * (c / 100), t - t * (c / 100)) ∧
    App.calculate_solution t c = (t * (c / 100), t - t * (c / 100)) ∧
    (Agent.calculate_solution t c).1 + (Agent.calculate_solution t c).2 = t ∧
    (App.calculate_solution t c).1 + (App.calculate_solution t c).2 = t := by
  have hg : ¬ (t ≤ 0 ∨ c ≤ 0) := by push_neg; exact ⟨ht, hc0⟩
  have h1 : Agent.calculate_solution t c = (t * (c / 100), t - t * (c / 100)) := by
    simp [Agent.calculate_solution, hg]
  have h2 : App.calculate_solution t c = (t * (c / 100), t - t * (c / 100)) := rfl
  refine ⟨h1, h2, ?_, ?_⟩
  · rw [h1]; show t * (c / 100) + (t - t * (c / 100)) = t; ring
  · rw [h2]; show t * (c / 100) + (t - t * (c / 100)) = t; ring

/-- Witness for C2 at the spec's Scenario 1 inputs (200 units at 1 percent). -/
theorem C2_witness :
    Agent.calculate_solution 200 1 = (200 * (1 / 100), 200 - 200 * (1 / 100)) ∧
    App.calculate_solution 200 1 = (200 * (1 / 100), 200 - 200 * (1 / 100)) ∧
    (Agent.calculate_solution 200 1).1 + (Agent.calculate_solution 200 1).2 = 200 ∧
    (App.calculate_solution 200 1).1 + (App.calculate_solution 200 1).2 = 200 :=
  C2_solution_split 200 1 (by norm_num) (by norm_num) (by norm_num)

/-- C3 counterexample: at stock concentration 1, final amount 200 and final
concentration 0.1 — all inside the claim's ranges — the `app.py` step-2 split
takes 0.2 units of stock while the `mode_flocculant_agent.py` step-2 split
takes 20, so the two variants do not agree. -/
theorem C3_counterexample :
    (0 : ℚ) < 1 ∧ (0 : ℚ) < 200 ∧ (0 : ℚ) < 0.1 ∧ (0.1 : ℚ) < 100 ∧
    (1 : ℚ) < 100 ∧
    (App.calculate_solution 200 (0.1)).1 = 0.2 ∧
    (computeDilution 1 200 (0.1) 200).stock_needed = 20 ∧
    (App.calculate_solution 200 (0.1)).1 ≠
      (computeDilution 1 200 (0.1) 200).stock_needed := by
  norm_num [App.calculate_solution, computeDilution]

/-- C3 amended: the `app.py` step-2 split coincides with the
`mode_flocculant_agent.py` dilution split only when the stock is taken at
100 percent concentration — `app.py` sizes the stock portion as if the stock
were pure, ignoring the actual stock concentration. -/
theorem C3_app_variant_assumes_pure_stock (f c a : ℚ) :
    (App.calculate_solution f c).1 = (computeDilution 100 f c a).stock_needed ∧
    (App.calculate_solution f c).2 = (computeDilution 100 f c a).water_needed := by
  constructor <;> simp [App.calculate_solution, computeDilution] <;> ring

/-- C4: `validate_inputs` returns the empty list exactly when all five rules
pass; each violated rule contributes its message (no short-circuiting); the
list length is the number of violated rules, one message per rule; and the
spec's Scenario 4 call returns exactly the amount violation. -/
theorem C4_validator (a c : ℚ) (s : String) (ctx : Option ℚ) (sc : ℚ) :
    (validate_inputs a c s ctx = [] ↔
      (0 < a ∧ 0 < c ∧ c < 100 ∧
        (s = "Final Dilution" → ∀ x, ctx = some x → c < x) ∧ a ≤ 10000)) ∧
    (a ≤ 0 → (s ++ ": Amount must be greater than 0") ∈
      validate_inputs a c s ctx) ∧
    (c ≤ 0 → (s ++ ": Concentration must be greater than 0") ∈
      validate_inputs a c s ctx) ∧
    (100 ≤ c → (s ++ ": Concentration must be less than 100%") ∈
      validate_inputs a c s ctx) ∧
    (s = "Final Dilution" → ctx = some sc → sc ≤ c →
      "Final concentration should be lower than stock concentration" ∈
        validate_inputs a c s ctx) ∧
    (10000 < a → (s ++ ": Amount seems unreasonably large (>10000)") ∈
      validate_inputs a c s ctx) ∧
    (validate_inputs a c s none).length =
      ((if a ≤ 0 then 1 else 0) + (if c ≤ 0 then 1 else 0) +
        (if 100 ≤ c then 1 else 0) + (if 10000 < a then 1 else 0)) ∧
    (validate_inputs a c s (some sc)).length =
      ((if a ≤ 0 then 1 else 0) + (if c ≤ 0 then 1 else 0) +
        (if 100 ≤ c then 1 else 0) +
        (if s = "Final Dilution" ∧ sc ≤ c then 1 else 0) +
        (if 10000 < a then 1 else 0)) ∧
    (∀ ctx2 : Option ℚ, validate_inputs (-5) 1 "Stock Solution" ctx2 =
      ["Stock Solution: Amount must be greater than 0"]) := by
  refine ⟨validate_inputs_eq_nil_iff a c s ctx, ?_, ?_, ?_, ?_, ?_, ?_, ?_, ?_⟩
  · intro h; simp [validate_inputs, h]
  · intro h; simp [validate_inputs, h]
  · intro h; simp [validate_inputs, h]
  · intro hs hctx h; subst hctx; simp [validate_inputs, cross_check, hs, h]
  · intro h; simp [validate_inputs, h]
  · simp only [validate_inputs, cross_check, List.length_append]
    split_ifs <;> simp
  · simp only [validate_inputs, cross_check, List.length_append]
    split_ifs <;> simp_all
  · intro ctx2
    have hne : "Stock Solution" ≠ "Final Dilution" := by decide
    rcases ctx2 with _ | x
    · norm_num [validate_inputs, cross_check]
      rfl
    · norm_num [validate_inputs, cross_check]
      exact ⟨rfl, fun hF => absurd hF hne⟩

/-- Witness for C4 at the Scenario 4 inputs. -/
theorem C4_witness :
    ("Stock Solution" ++ ": Amount must be greater than 0") ∈
      validate_inputs (-5) 1 "Stock Solution" none ∧
    validate_inputs (-5) 1 "Stock Solution" none =
      ["Stock Solution: Amount must be greater than 0"] :=
  ⟨(C4_validator (-5) 1 "Stock Solution" none 0).2.1 (by norm_num),
    (C4_validator (-5) 1 "Stock Solution" none 0).2.2.2.2.2.2.2.2 none⟩

/-- C5: whenever the stock concentration does not exceed the requested final
concentration, the step-2 handler is blocked: the blocking violation message
is produced by the validator, the completion flag stays cleared, and no
dilution result is written; the coherence hypothesis (the session input field
equals the accepted stock concentration) holds in every reachable step-2
state, since changing the stock inputs resets step 1. The last conjunct is
the spec's Scenario 3 request flagged explicitly. -/
theorem C5_invalid_dilution_blocked (st : Session)
    (hcoh : st.stock_conc = st.stock_calculations.stock_conc)
    (h : st.stock_calculations.stock_conc ≤ st.final_conc) :
    (step2_handler st).step2_completed = false ∧
    (step2_handler st).dilution_calculations = st.dilution_calculations ∧
    "Final concentration should be lower than stock concentration" ∈
      validate_inputs st.final_amount st.final_conc "Final Dilution"
        (some st.stock_conc) ∧
    "Final concentration should be lower than stock concentration" ∈
      validate_inputs 200 (0.5) "Final Dilution" (some (0.3)) := by
  have hsc : st.stock_conc ≤ st.final_conc := hcoh ▸ h
  have herrs : validate_inputs st.final_amount st.final_conc "Final Dilution"
      (some st.stock_conc) ≠ [] := by
    intro hnil
    rw [validate_inputs_eq_nil_iff] at hnil
    obtain ⟨-, -, -, hcross, -⟩ := hnil
    exact absurd (hcross rfl st.stock_conc rfl) (not_lt.mpr hsc)
  refine ⟨?_, ?_, ?_, ?_⟩
  · simp only [step2_handler]
    rw [if_neg herrs]
  · simp only [step2_handler]
    rw [if_neg herrs]
  · simp [validate_inputs, cross_check, hsc]
  · norm_num [validate_inputs, cross_check]

/-- Witness for C5 at the Scenario 3 session state. -/
theorem C5_witness :
    (step2_handler invalidDilutionSession).step2_completed = false ∧
    (step2_handler invalidDilutionSession).dilution_calculations =
      invalidDilutionSession.dilution_calculations ∧
    "Final concentration should be lower than stock concentration" ∈
      validate_inputs invalidDilutionSession.final_amount
        invalidDilutionSession.final_conc "Final Dilution"
        (some invalidDilutionSession.stock_conc) ∧
    "Final concentration should be lower than stock concentration" ∈
      validate_inputs 200 (0.5) "Final Dilution" (some (0.3)) :=
  C5_invalid_dilution_blocked invalidDilutionSession rfl
    (by norm_num [invalidDilutionSession])

/-- C6: the dilution computation reports `sufficient = true` exactly when the
required stock does not exceed the available stock; at the spec's Scenario 5
numbers (25 units needed, 20 available) it reports insufficiency with a
shortfall of 5 rather than failing; and a session whose required stock
exceeds the accepted stock amount is never advanced to completion by the
step-2 handler. -/
theorem C6_insufficiency_reported (s f c a : ℚ) (st : Session)
    (hins : st.stock_calculations.stock_amount <
      (st.final_conc * st.final_amount) / st.stock_calculations.stock_conc) :
    ((computeDilution s f c a).sufficient = true ↔
      (computeDilution s f c a).stock_needed ≤ a) ∧
    (computeDilution 1 250 (0.1) 20).sufficient = false ∧
    (computeDilution 1 250 (0.1) 20).stock_needed - 20 = 5 ∧
    (step2_handler st).step2_completed = false := by
  refine ⟨?_, ?_, ?_, ?_⟩
  · show decide (¬ a < (c * f) / s) = true ↔ (c * f) / s ≤ a
    simp [not_lt]
  · norm_num [computeDilution]
  · norm_num [computeDilution]
  · have hrec : step2_handler st = { st with step2_completed := false } := by
      simp only [step2_handler]
      split_ifs with h1 <;> rfl
    rw [hrec]

/-- Witness for C6 at the Scenario 5 session state. -/
theorem C6_witness :
    ((computeDilution 1 200 (0.1) 200).sufficient = true ↔
      (computeDilution 1 200 (0.1) 200).stock_needed ≤ 200) ∧
    (computeDilution 1 250 (0.1) 20).sufficient = false ∧
    (computeDilution 1 250 (0.1) 20).stock_needed - 20 = 5 ∧
    (step2_handler insufficientStockSession).step2_completed = false :=
  C6_insufficiency_reported 1 200 (0.1) 200 insufficientStockSession
    (by norm_num [insufficientStockSession])

/-- C7 counterexample: `app.py::calculate_solution` applies no input check, so
at amount -5 (which violates the precondition) with concentration 10 it
returns the raw linear split (-1/2, -9/2), not the zeroed result (0, 0) the
claim requires of every `computeSolution` variant. -/
theorem C7_counterexample :
    ((-5 : ℚ) ≤ 0) ∧ App.calculate_solution (-5) 10 = (-1/2, -9/2) ∧
    App.calculate_solution (-5) 10 ≠ (0, 0) := by
  norm_num [App.calculate_solution, Prod.ext_iff]

/-- C7 amended: the mode-aware variant (`mode_flocculant_agent.py`) returns
the zeroed result (0, 0) whenever amount or concentration is nonpositive, and
for positive amount and concentration it never rejects — even at
concentration at or above 100 it returns the ordinary linear split; the
`app.py` variant performs no such check at all. -/
theorem C7_amended_guard (a c : ℚ) :
    (a ≤ 0 ∨ c ≤ 0 → Agent.calculate_solution a c = (0, 0)) ∧
    (0 < a → 0 < c →
      Agent.calculate_solution a c = (a * (c / 100), a - a * (c / 100))) := by
  constructor
  · intro h; simp [Agent.calculate_solution, h]
  · intro ha hc
    have hg : ¬ (a ≤ 0 ∨ c ≤ 0) := by push_neg; exact ⟨ha, hc⟩
    simp [Agent.calculate_solution, hg]

/-- Witness for C7: the guard zeroes a negative amount, and a concentration of
150 percent is not rejected. -/
theorem C7_witness :
    Agent.calculate_solution (-5) 1 = (0, 0) ∧
    Agent.calculate_solution 200 150 =
      (200 * (150 / 100), 200 - 200 * (150 / 100)) :=
  ⟨(C7_amended_guard (-5) 1).1 (Or.inl (by norm_num)),
    (C7_amended_guard 200 150).2 (by norm_num) (by norm_num)⟩

/-- C8: holding the stock concentration, final amount and available stock
fixed, the required stock is strictly increasing in the requested final
concentration. -/
theorem C8_stock_needed_monotone (s f a c1 c2 : ℚ) (hs : 0 < s) (hf : 0 < f)
    (ha : 0 ≤ a) (hc1 : 0 < c1) (h12 : c1 < c2) :
    (computeDilution s f c1 a).stock_needed <
      (computeDilution s f c2 a).stock_needed := by
  show c1 * f / s < c2 * f / s
  exact (div_lt_div_iff_of_pos_right hs).mpr (mul_lt_mul_of_pos_right h12 hf)

/-- Witness for C8: raising the final concentration from 0.1 to 0.2 raises
the stock needed. -/
theorem C8_witness :
    (computeDilution 1 200 (0.1) 200).stock_needed <
      (computeDilution 1 200 (0.2) 200).stock_needed :=
  C8_stock_needed_monotone 1 200 200 (0.1) (0.2) (by norm_num) (by norm_num)
    (by norm_num) (by norm_num) (by norm_num)

/-- C9: on every error path of the step-2 handler — validation violations or
required stock exceeding the available stock — the resulting session is the
input session with only the completion flag cleared; in particular the stored
`dilution_calculations` record is untouched and no fresh dilution record is
written. -/
theorem C9_error_paths_preserve_session (st : Session)
    (h : validate_inputs st.final_amount st.final_conc "Final Dilution"
        (some st.stock_conc) ≠ [] ∨
      st.stock_calculations.stock_amount <
        (st.final_conc * st.final_amount) / st.stock_calculations.stock_conc) :
    step2_handler st = { st with step2_completed := false } := by
  simp only [step2_handler]
  split_ifs with h1 h2
  · rfl
  · rcases h with h | h
    · exact absurd h1 h
    · exact absurd h h2
  · rfl

/-- Witness for C9 at the insufficient-stock session state. -/
theorem C9_witness :
    step2_handler insufficientStockSession =
      { insufficientStockSession with step2_completed := false } :=
  C9_error_paths_preserve_session insufficientStockSession
    (Or.inr (by norm_num [insufficientStockSession]))

/-- C10: both variants of the solution calculator are deterministic — two
calls with equal arguments return equal results; in this embedding the
functions are pure by construction, faithfully reflecting that the source
functions compute their return value from the arguments alone (logging and
UI error display do not feed back into the result). -/
theorem C10_deterministic (a c a2 c2 : ℚ) (h1 : a = a2) (h2 : c = c2) :
    Agent.calculate_solution a c = Agent.calculate_solution a2 c2 ∧
    App.calculate_solution a c = App.calculate_solution a2 c2 := by
  subst h1; subst h2; exact ⟨rfl, rfl⟩

/-- Witness for C10 at Scenario 1 inputs. -/
theorem C10_witness :
    Agent.calculate_solution 200 1 = Agent.calculate_solution 200 1 ∧
    App.calculate_solution 200 1 = App.calculate_solution 200 1 :=
  C10_deterministic 200 1 200 1 rfl rfl

end BayerProcess
